import Mathlib

/-!
Shallow embedding of the WhatsApp outbound-messaging subsystem of the
polymer-trading repository: circuit breaker (`circuit-breaker.ts`),
rate limiter (`rate-limiter.ts`), error classification and send pipeline
(`whatsapp.service.ts`), deal-creation glue (`deal.service.ts`) and
messaging validation (`message-templates.ts`).

Timestamps are modelled as `Int` milliseconds (JS `Date.now()` values);
JS number arithmetic on these values is exact integer arithmetic in the
ranges involved.  Free-text error-message strings that no claim depends on
are elided from the error-value model; the classification-relevant fields
(`type`, `retryAfter`, `httpStatus`) are kept.
-/

namespace Spec2Proof

/-! ### Circuit breaker (`circuit-breaker.ts`) -/

/-- The three breaker states: `'CLOSED' | 'OPEN' | 'HALF_OPEN'`. -/
inductive BreakerStateKind
  | CLOSED
  | OPEN
  | HALF_OPEN
deriving DecidableEq, Repr

/-- `CircuitBreakerConfig` with the constructor's defaults
(`failureThreshold: 10`, `timeoutMs: 300000`, `monitoringWindowMs: 60000`,
`minimumRequestThreshold: 5`). -/
structure CircuitBreakerConfig where
  failureThreshold : Nat := 10
  timeoutMs : Int := 300000
  monitoringWindowMs : Int := 60000
  minimumRequestThreshold : Nat := 5
deriving DecidableEq, Repr

/-- The mutable fields of `WhatsAppCircuitBreaker`. -/
structure BreakerState where
  state : BreakerStateKind
  failures : Nat
  successes : Nat
  requests : Nat
  lastFailureTime : Int
  stateChangedAt : Int
deriving DecidableEq, Repr

/-- Field initialisers of `WhatsAppCircuitBreaker`: `state = 'CLOSED'`,
counters `0`, `lastFailureTime = 0`, `stateChangedAt = Date.now()`. -/
def initialBreaker (now : Int) : BreakerState :=
  { state := .CLOSED, failures := 0, successes := 0, requests := 0
    lastFailureTime := 0, stateChangedAt := now }

/-- `resetCounters()`. -/
def resetCounters (b : BreakerState) : BreakerState :=
  { b with failures := 0, successes := 0, requests := 0 }

/-- `transitionTo(newState)` (logging elided; `stateChangedAt = Date.now()`). -/
def transitionTo (b : BreakerState) (newState : BreakerStateKind) (now : Int) : BreakerState :=
  { b with state := newState, stateChangedAt := now }

/-- `cleanOldMetrics()`: reset the counters once `requests > 1000`. -/
def cleanOldMetrics (b : BreakerState) : BreakerState :=
  if b.requests > 1000 then resetCounters b else b

/-- `onSuccess()`. -/
def onSuccess (b : BreakerState) (now : Int) : BreakerState :=
  let b := { b with successes := b.successes + 1, requests := b.requests + 1 }
  let b := if b.state = .HALF_OPEN then resetCounters (transitionTo b .CLOSED now) else b
  cleanOldMetrics b

/-- `onFailure()`. -/
def onFailure (cfg : CircuitBreakerConfig) (b : BreakerState) (now : Int) : BreakerState :=
  let b := { b with failures := b.failures + 1, requests := b.requests + 1
                    lastFailureTime := now }
  let b :=
    if b.state = .HALF_OPEN then transitionTo b .OPEN now
    else if b.state = .CLOSED ∧ b.failures ≥ cfg.failureThreshold then
      transitionTo b .OPEN now
    else b
  cleanOldMetrics b

/-- `shouldAttemptReset()`: `Date.now() - lastFailureTime >= timeoutMs`. -/
def shouldAttemptReset (cfg : CircuitBreakerConfig) (b : BreakerState) (now : Int) : Bool :=
  now - b.lastFailureTime ≥ cfg.timeoutMs

/-- `getNextAttemptTime()`: `lastFailureTime + timeoutMs`. -/
def getNextAttemptTime (cfg : CircuitBreakerConfig) (b : BreakerState) : Int :=
  b.lastFailureTime + cfg.timeoutMs

/-- Outcome of one `execute` call: either the call was rejected with a
`CircuitBreakerOpenError` (carrying the next-attempt time) without invoking
the operation, or the operation ran and succeeded/failed. -/
inductive ExecOutcome
  | rejected (nextAttemptTime : Int)
  | ran (success : Bool)
deriving DecidableEq, Repr

/-- `execute(operation)`, as a step function: the boolean `opSucceeds` is
whether the wrapped operation would succeed when invoked at time `now`. -/
def execute (cfg : CircuitBreakerConfig) (b : BreakerState) (now : Int)
    (opSucceeds : Bool) : ExecOutcome × BreakerState :=
  if b.state = .OPEN ∧ ¬ shouldAttemptReset cfg b now then
    (.rejected (getNextAttemptTime cfg b), b)
  else
    let b1 := if b.state = .OPEN then transitionTo b .HALF_OPEN now else b
    if opSucceeds then (.ran true, onSuccess b1 now)
    else (.ran false, onFailure cfg b1 now)

/-- Run a sequence of `execute` calls whose operations all fail, at the
given call times. -/
def runFailures (cfg : CircuitBreakerConfig) (ts : List Int) (b : BreakerState) : BreakerState :=
  ts.foldl (fun b t => (execute cfg b t false).2) b

/-- Default-constructed breaker configuration. -/
def defaultBrkCfg : CircuitBreakerConfig := {}

/-! ### Rate limiter (`rate-limiter.ts`) -/

/-- `RateLimiterConfig` with the constructor's defaults
(`maxRequestsPerMinute: 80`, `windowMs: 60000`, `jitter: true`). -/
structure RateLimiterConfig where
  maxRequestsPerMinute : Nat := 80
  windowMs : Int := 60000
  jitter : Bool := true
deriving DecidableEq, Repr

/-- The `current` discriminator of `RateLimitStatus`. -/
inductive RateCurrent
  | ok
  | warning
  | limited
deriving DecidableEq, Repr

/-- `RateLimitStatus` (the `waitTime` field is only set when limited). -/
structure RateLimitStatus where
  current : RateCurrent
  remaining : Int
  resetTime : Int
  waitTime : Option Int := none
deriving DecidableEq, Repr

/-- `cleanOldRequests()`: drop every tracked timestamp that is not strictly
newer than `Date.now() - windowMs` (`req > cutoff`). -/
def cleanOldRequests (cfg : RateLimiterConfig) (now : Int) (requests : List Int) : List Int :=
  requests.filter (fun req => now - cfg.windowMs < req)

/-- `getStatus()`.  In the source `cleanOldRequests` mutates `this.requests`;
here the cleaned list is returned alongside the status as the new stored
window. -/
def getStatus (cfg : RateLimiterConfig) (now : Int) (requests : List Int) :
    RateLimitStatus × List Int :=
  let cleaned := cleanOldRequests cfg now requests
  let remaining : Int := (cfg.maxRequestsPerMinute : Int) - cleaned.length
  let resetTime := now + cfg.windowMs
  if remaining ≤ 0 then
    let waitTime :=
      match cleaned.head? with
      | some oldestRequest => cfg.windowMs - (now - oldestRequest)
      | none => cfg.windowMs
    ({ current := .limited, remaining := 0, resetTime, waitTime := some (max 0 waitTime) },
      cleaned)
  else if remaining ≤ 5 then
    ({ current := .warning, remaining, resetTime }, cleaned)
  else
    ({ current := .ok, remaining, resetTime }, cleaned)

/-- `recordRequest()`: append `now`; if the array then exceeds
`2 * maxRequestsPerMinute` entries keep only the last
`maxRequestsPerMinute` (`slice(-max)`; JS `slice(-0)` keeps everything,
hence the `max = 0` branch). -/
def recordRequest (cfg : RateLimiterConfig) (now : Int) (requests : List Int) : List Int :=
  let requests := requests ++ [now]
  if requests.length > cfg.maxRequestsPerMinute * 2 then
    if cfg.maxRequestsPerMinute = 0 then requests
    else requests.drop (requests.length - cfg.maxRequestsPerMinute)
  else requests

/-- Result of one `waitIfNeeded()` call: the returned wait time (0 when the
call proceeded immediately) and the limiter's tracked window afterwards. -/
structure WaitResult where
  waited : Int
  requests : List Int
deriving DecidableEq, Repr

/-- `waitIfNeeded()`.  On the limited path the call sleeps and returns the
computed wait time; note that `recordRequest` is called only on the
non-limited path. -/
def waitIfNeeded (cfg : RateLimiterConfig) (now : Int) (requests : List Int) : WaitResult :=
  let (status, cleaned) := getStatus cfg now requests
  if status.current = .limited then
    { waited := status.waitTime.getD 0, requests := cleaned }
  else
    { waited := 0, requests := recordRequest cfg now cleaned }

/-- `wait(ms)`: actual sleep duration, with jitter sampled as
`r ∈ [0, 1)` standing for `Math.random()`; jitter is added only when
enabled and the wait exceeds 1 second, and is bounded by
`min(waitTime * 0.1, 5000)`; the final duration is floored at 0. -/
def sleepDuration (cfg : RateLimiterConfig) (ms : Int) (r : ℚ) : ℚ :=
  let waitTime : ℚ := (ms : ℚ)
  let waitTime :=
    if cfg.jitter ∧ ms > 1000 then waitTime + r * min (waitTime * (1 / 10)) 5000
    else waitTime
  max 0 waitTime

/-- Run a sequence of `waitIfNeeded` calls at the given times, collecting
for each call the status discriminator it saw and the wait it returned. -/
def runCalls (cfg : RateLimiterConfig) :
    List Int → List Int → List (RateCurrent × Int) × List Int
  | [], requests => ([], requests)
  | t :: ts, requests =>
    let status := (getStatus cfg t requests).1
    let res := waitIfNeeded cfg t requests
    let rest := runCalls cfg ts res.requests
    ((status.current, res.waited) :: rest.1, rest.2)

/-- Default-constructed rate-limiter configuration. -/
def defaultLimCfg : RateLimiterConfig := {}

/-! ### Error model (`whatsapp.types.ts`) -/

/-- `WhatsAppErrorType`. -/
inductive WhatsAppErrorType
  | AUTH_ERROR
  | RATE_LIMIT
  | INVALID_RECIPIENT
  | NETWORK_ERROR
  | VALIDATION_ERROR
  | QUOTA_EXCEEDED
  | UNKNOWN_ERROR
deriving DecidableEq, Repr

/-- The classification-relevant fields of `WhatsAppServiceError`
(`message` text elided).  The TS class has no next-attempt-time field at
all; `nextAttemptTime` is included here so that statements about whether a
classified error carries the breaker's next-eligible-attempt time can be
expressed — every constructor of the class leaves it `none`. -/
structure WhatsAppSvcError where
  type : WhatsAppErrorType
  retryAfter : Option Int := none
  httpStatus : Option Int := none
  nextAttemptTime : Option Int := none
deriving DecidableEq, Repr

/-- `WhatsAppAuthError`: `('AUTH_ERROR', undefined, 401)`. -/
def authError : WhatsAppSvcError :=
  { type := .AUTH_ERROR, httpStatus := some 401 }

/-- `WhatsAppRateLimitError`: `('RATE_LIMIT', retryAfter, 429)`. -/
def rateLimitError (retryAfter : Int) : WhatsAppSvcError :=
  { type := .RATE_LIMIT, retryAfter := some retryAfter, httpStatus := some 429 }

/-- `WhatsAppNetworkError`: `('NETWORK_ERROR', undefined, undefined)`. -/
def networkError : WhatsAppSvcError :=
  { type := .NETWORK_ERROR }

/-- `WhatsAppValidationError`: `('VALIDATION_ERROR', undefined, 400)`. -/
def validationError : WhatsAppSvcError :=
  { type := .VALIDATION_ERROR, httpStatus := some 400 }

/-! ### Failure classification (`whatsapp.service.ts`) -/

/-- The distinguishable ways a downstream call can fail, as seen by
`handleError`: a non-2xx HTTP response (status plus optional parsed
`Retry-After` header), a `CircuitBreakerOpenError` (which carries the
breaker's next-attempt time), a transport error with code `ECONNREFUSED`
or `ETIMEDOUT`, or any other thrown value. -/
inductive ApiFailure
  | http (status : Int) (retryAfterHeader : Option Int)
  | breakerOpen (nextAttemptTime : Int)
  | connRefused
  | timedOut
  | otherError
deriving DecidableEq, Repr

/-- `handleApiError(response)`: the error thrown for a non-ok HTTP status.
`parseInt(headers.get('Retry-After') || '60')` is `retryAfterHeader.getD 60`. -/
def handleApiError (status : Int) (retryAfterHeader : Option Int) : WhatsAppSvcError :=
  if status = 401 then authError
  else if status = 429 then rateLimitError (retryAfterHeader.getD 60)
  else if status = 400 then validationError
  else if status = 500 ∨ status = 502 ∨ status = 503 ∨ status = 504 then networkError
  else { type := .UNKNOWN_ERROR, httpStatus := some status }

/-- `handleError(error)`: errors thrown by `handleApiError` are
`WhatsAppServiceError` instances and are returned unchanged; a
`CircuitBreakerOpenError` becomes `('NETWORK_ERROR', undefined, 503)`
(its `nextAttemptTime` is not copied — the class has no such field);
`ECONNREFUSED`/`ETIMEDOUT` become `WhatsAppNetworkError`; anything else
becomes `('UNKNOWN_ERROR', undefined, undefined)`. -/
def handleError : ApiFailure → WhatsAppSvcError
  | .http status retryAfterHeader => handleApiError status retryAfterHeader
  | .breakerOpen _ => { type := .NETWORK_ERROR, httpStatus := some 503 }
  | .connRefused => networkError
  | .timedOut => networkError
  | .otherError => { type := .UNKNOWN_ERROR }

/-! ### Send pipeline (`whatsapp.service.ts`) -/

/-- `RecipientRole`. -/
inductive RecipientRole
  | accounts
  | logistics
  | boss1
  | bossog
deriving DecidableEq, Repr

/-- `startsWith('+')`, modelled over the string's character list
(`String.startsWith` itself does not reduce in the kernel). -/
def startsWithPlus (s : String) : Bool :=
  match s.data with
  | [] => false
  | c :: _ => c == '+'

/-- `validateInputs(phoneNumber, message)` as a predicate: the checks, in
source order, are non-empty phone, leading `'+'`, total length between 10
and 16 characters, non-empty message, message length at most 4096. -/
def validateInputs (phoneNumber message : String) : Bool :=
  !(phoneNumber == "") && startsWithPlus phoneNumber
    && decide (10 ≤ phoneNumber.length) && decide (phoneNumber.length ≤ 16)
    && !(message == "") && decide (message.length ≤ 4096)

/-- Outcome of one `makeApiCall` transport invocation: a 2xx response whose
JSON body carries the `messages` array's ids, or a failure cause. -/
inductive TransportOutcome
  | ok (messageIds : List String)
  | fail (cause : ApiFailure)
deriving DecidableEq, Repr

/-- `SendMessageResult`. -/
structure SendMessageResult where
  success : Bool
  messageId : Option String := none
  externalMessageId : Option String := none
  error : Option WhatsAppSvcError := none
  recipient : String
  role : RecipientRole
deriving DecidableEq, Repr

/-- The shared mutable state a send threads through: the rate limiter's
tracked window and the circuit breaker's fields. -/
structure SendState where
  limiter : List Int
  breaker : BreakerState
deriving DecidableEq, Repr

/-- Result of one `sendMessage` call: the returned `SendMessageResult`,
the shared state afterwards, and whether the downstream transport was
invoked at all. -/
structure SendOutcome where
  result : SendMessageResult
  state : SendState
  transportInvoked : Bool
deriving DecidableEq, Repr

/-- `sendMessage(phoneNumber, message, dealId?, role?)`.  The surrounding
`try/catch` makes the function total: every thrown error is classified by
`handleError` into a `success: false` result.  The pipeline, in source
order: feature flag, `validateInputs`, `rateLimiter.waitIfNeeded()` (never
throws), `circuitBreaker.execute(makeApiCall)`.  `transport` stands for
`makeApiCall`'s downstream outcome for a given phone/message pair;
`now` is the call's `Date.now()`. -/
def sendMessage (messagingEnabled : Bool) (limCfg : RateLimiterConfig)
    (brkCfg : CircuitBreakerConfig) (transport : String → String → TransportOutcome)
    (now : Int) (st : SendState) (phoneNumber message : String)
    (role : Option RecipientRole) : SendOutcome :=
  if !messagingEnabled then
    -- `throw new WhatsAppValidationError('WhatsApp messaging is disabled')`
    { result := { success := false, error := some validationError,
                  recipient := phoneNumber, role := role.getD .accounts }
      state := st, transportInvoked := false }
  else if !validateInputs phoneNumber message then
    { result := { success := false, error := some validationError,
                  recipient := phoneNumber, role := role.getD .accounts }
      state := st, transportInvoked := false }
  else
    let wr := waitIfNeeded limCfg now st.limiter
    let st : SendState := { st with limiter := wr.requests }
    let t := transport phoneNumber message
    let opSucceeds := match t with | .ok _ => true | .fail _ => false
    let (outcome, breaker) := execute brkCfg st.breaker now opSucceeds
    match outcome with
    | .rejected nextAttemptTime =>
      { result := { success := false
                    error := some (handleError (.breakerOpen nextAttemptTime))
                    recipient := phoneNumber, role := role.getD .accounts }
        state := { st with breaker }, transportInvoked := false }
    | .ran _ =>
      match t with
      | .ok messageIds =>
        { result := { success := true
                      messageId := some ("whatsapp-" ++ toString now)
                      externalMessageId := messageIds.head?
                      recipient := phoneNumber, role := role.getD .accounts }
          state := { st with breaker }, transportInvoked := true }
      | .fail cause =>
        { result := { success := false, error := some (handleError cause)
                      recipient := phoneNumber, role := role.getD .accounts }
          state := { st with breaker }, transportInvoked := true }

/-- The four configured recipient phone numbers (`config.recipients`);
the TS record always has all four keys, a role is disabled by leaving its
value the empty string (`process.env... || ''`). -/
structure Recipients where
  accounts : String
  logistics : String
  boss1 : String
  bossog : String
deriving DecidableEq, Repr

/-- `Object.entries(this.config.recipients)` in the record's insertion
order. -/
def Recipients.entries (r : Recipients) : List (RecipientRole × String) :=
  [(.accounts, r.accounts), (.logistics, r.logistics),
   (.boss1, r.boss1), (.bossog, r.bossog)]

/-- `BulkSendResult`. -/
structure BulkSendResult where
  dealId : String
  results : List SendMessageResult
  successCount : Nat
  failureCount : Nat
  errors : List WhatsAppSvcError
deriving DecidableEq, Repr

/-- The per-recipient body of `sendDealNotifications`'s send loop: send the
rendered message to the entry's phone, collect the result, and collect the
error when the result failed (`if (!result.success && result.error)
errors.push(result.error)`).  The inner `try/catch` is dead in this model:
`generateMessage` and `sendMessage` are total. -/
def sendDealStep (messagingEnabled : Bool) (limCfg : RateLimiterConfig)
    (brkCfg : CircuitBreakerConfig) (genMessage : RecipientRole → String)
    (transport : String → String → TransportOutcome) (now : Int)
    (acc : List SendMessageResult × List WhatsAppSvcError × SendState)
    (entry : RecipientRole × String) :
    List SendMessageResult × List WhatsAppSvcError × SendState :=
  let out := sendMessage messagingEnabled limCfg brkCfg transport now acc.2.2
    entry.2 (genMessage entry.1) (some entry.1)
  let errors :=
    if !out.result.success then
      match out.result.error with
      | some e => acc.2.1 ++ [e]
      | none => acc.2.1
    else acc.2.1
  (acc.1 ++ [out.result], errors, out.state)

/-- `sendDealNotifications(deal)`: for every entry of `config.recipients`
render the role's message and send it; collect every result, and every
error of a failed result.  The per-role sends run under `Promise.allSettled`
in a single-threaded event loop; they are modelled as running to completion
in entry order (the claims under verification concern counts and per-role
results, which do not depend on completion order).  `genMessage` stands for
`generateMessage(role, deal)` (total — the template registry covers all
four roles), `dealId` for `deal.id`. -/
def sendDealNotifications (messagingEnabled : Bool) (limCfg : RateLimiterConfig)
    (brkCfg : CircuitBreakerConfig) (recipients : Recipients)
    (genMessage : RecipientRole → String)
    (transport : String → String → TransportOutcome)
    (now : Int) (st : SendState) (dealId : String) : BulkSendResult × SendState :=
  let folded := recipients.entries.foldl
    (sendDealStep messagingEnabled limCfg brkCfg genMessage transport now) ([], [], st)
  let results := folded.1
  ({ dealId, results
     successCount := (results.filter (fun r => r.success)).length
     failureCount := (results.filter (fun r => !r.success)).length
     errors := folded.2.1 }, folded.2.2)

/-! ### Deal service (`deal.service.ts`) -/

/-- One entry of `whatsappResults.errors` (`{ recipient, role, error }`;
the free-text `error` message is elided). -/
structure ErrRecord where
  recipient : String
  role : String
deriving DecidableEq, Repr

/-- The `whatsappResults` summary built by `createDeal`. -/
structure WhatsappResultsSummary where
  enabled : Bool
  success : Bool
  successCount : Nat
  failureCount : Nat
  errors : List ErrRecord
deriving DecidableEq, Repr

/-- `CreateDealResult` (the converted `deal` payload is claim-irrelevant
and elided). -/
structure CreateDealResult where
  success : Bool
  dealId : String
  whatsappResults : Option WhatsappResultsSummary := none
  error : Option String := none
deriving DecidableEq, Repr

/-- Extend `WhatsAppSvcError` with the optional `recipient` the TS class
carries, as used by `createDeal`'s error mapping (`error.recipient ||
'unknown'`).  The send pipeline above never sets it (the claims under
verification do not depend on it), so it is kept as a separate wrapper. -/
structure BulkErrRecipient where
  recipient : Option String := none
deriving DecidableEq, Repr

/-- `createDeal(dealRequest)`.  `whatsappEnabled` is `isWhatsAppEnabled()`;
`notify` is the outcome of `sendDealNotifications` — `.error` when the
whole notification pipeline throws.  `now`/`randSuffix` feed the generated
`DEAL-${Date.now()}-${random}` id.  The body's happy path cannot throw
(`convertFormDataToDealData` is a pure field mapping), so the outer
`catch` branch is unreachable in this model and `success` is always
`true`. -/
def createDeal (whatsappEnabled : Bool) (now : Int) (randSuffix : String)
    (notify : Except String (BulkSendResult × List BulkErrRecipient)) : CreateDealResult :=
  let dealId := "DEAL-" ++ toString now ++ "-" ++ randSuffix
  let whatsappResults :=
    if whatsappEnabled then
      match notify with
      | .ok (results, errRecipients) =>
        some { enabled := true
               success := decide (results.successCount > 0)
               successCount := results.successCount
               failureCount := results.failureCount
               errors := errRecipients.map (fun e => ⟨e.recipient.getD "unknown", "unknown"⟩) }
      | .error _ =>
        some { enabled := true, success := false, successCount := 0
               failureCount := 4, errors := [⟨"all", "all"⟩] }
    else
      some { enabled := false, success := false, successCount := 0
             failureCount := 0, errors := [] }
  { success := true, dealId, whatsappResults }

/-! ### Messaging validation (`message-templates.ts`) -/

/-- `materialSource` values. -/
inductive MaterialSource
  | newMaterial
  | fromInventory
deriving DecidableEq, Repr

/-- `deliveryTerms` values. -/
inductive DeliveryTerms
  | delivered
  | exWarehouse
deriving DecidableEq, Repr

/-- `Partial<DealData>`, with `Option` for possibly-`undefined` fields.
Numeric fields use ℚ (JS numbers; the validation only compares with 0).
`date` is a `Date` object, always truthy when present. -/
structure PartialDeal where
  id : Option String := none
  date : Option Int := none
  saleParty : Option String := none
  quantitySold : Option ℚ := none
  saleRate : Option ℚ := none
  deliveryTerms : Option DeliveryTerms := none
  productCode : Option String := none
  materialSource : Option MaterialSource := none
  purchaseParty : Option String := none
  quantityPurchased : Option ℚ := none
  purchaseRate : Option ℚ := none
deriving DecidableEq, Repr

/-- JS falsiness of an optional string: `undefined` or `''`. -/
def strFalsy (s : Option String) : Bool :=
  match s with
  | none => true
  | some v => v == ""

/-- JS `!x || x <= 0` on an optional number (`!0` and `0 <= 0` coincide). -/
def numMissingOrNonpos (q : Option ℚ) : Bool :=
  match q with
  | none => true
  | some v => decide (v ≤ 0)

/-- `validateDealForMessaging(deal)`: the itemized error list, pushed in
source order. -/
def validateDealForMessaging (deal : PartialDeal) : List String :=
  (if strFalsy deal.id then ["Deal ID is required"] else [])
  ++ (if deal.date.isNone then ["Deal date is required"] else [])
  ++ (if strFalsy deal.saleParty then ["Sale party (customer) is required"] else [])
  ++ (if numMissingOrNonpos deal.quantitySold then ["Quantity sold must be positive"] else [])
  ++ (if numMissingOrNonpos deal.saleRate then ["Sale rate must be positive"] else [])
  ++ (if deal.deliveryTerms.isNone then ["Delivery terms are required"] else [])
  ++ (if strFalsy deal.productCode then ["Product code is required"] else [])
  ++ (if deal.materialSource.isNone then ["Material source is required"] else [])
  ++ (if deal.materialSource = some .newMaterial then
        (if strFalsy deal.purchaseParty then
          ["Purchase party is required for new material"] else [])
        ++ (if numMissingOrNonpos deal.quantityPurchased then
          ["Purchase quantity is required for new material"] else [])
        ++ (if numMissingOrNonpos deal.purchaseRate then
          ["Purchase rate is required for new material"] else [])
      else [])

/-- The fixed role order of `generateAllMessages`. -/
def allRoles : List RecipientRole := [.accounts, .logistics, .boss1, .bossog]

/-- `getMessagePreviews(deal)`: throws (here `.error`) with the joined
validation errors before any template rendering; `render` stands for the
template engine (`generateMessage`). -/
def getMessagePreviews (render : PartialDeal → RecipientRole → String)
    (deal : PartialDeal) : Except String (List (RecipientRole × String)) :=
  let validationErrors := validateDealForMessaging deal
  if validationErrors.length > 0 then
    .error ("Cannot generate messages: " ++ String.intercalate ", " validationErrors)
  else
    .ok (allRoles.map (fun r => (r, render deal r)))

/-! ### The spec's claimed phone rule (for the refinement comparison) -/

/-- Modelled from the spec's words, NOT from the source, for comparison
with `validateInputs`: "phone-number format (must start with a `+`
country-code prefix, 10–15 digits following it)". -/
def specPhoneRule (p : String) : Bool :=
  startsWithPlus p && (p.data.drop 1).all Char.isDigit
    && decide (10 ≤ (p.data.drop 1).length) && decide ((p.data.drop 1).length ≤ 15)

/-- A freshly constructed service's shared state: empty rate-limiter
window, default-initialised breaker. -/
def freshState (t : Int) : SendState :=
  { limiter := [], breaker := initialBreaker t }

/-- Placeholder default used with `List.getD` when indexing result lists. -/
def dfltResult : SendMessageResult :=
  { success := false, recipient := "", role := .accounts }

/-- Concrete run for the omitted-role scenario: all four roles present in
the config record, `bossog` left empty (its env var unset), an
always-succeeding downstream, fresh limiter/breaker state. -/
def emptyRoleRun : BulkSendResult :=
  (sendDealNotifications true defaultLimCfg defaultBrkCfg
    { accounts := "+12345678901", logistics := "+12345678902",
      boss1 := "+12345678903", bossog := "" }
    (fun _ => "hello") (fun _ _ => .ok ["id1"]) 0 (freshState 0) "DEAL-1").1

/-- Concrete `sendMessage` run whose 2xx response carries an empty
`messages` array. -/
def emptyMessagesRun : SendOutcome :=
  sendMessage true defaultLimCfg defaultBrkCfg (fun _ _ => .ok []) 0
    (freshState 0) "+12345678901" "hello" (some .accounts)

/-- Concrete `sendMessage` run with a phone number that violates the
spec's claimed rule (`+` followed by 10–15 digits) but passes the code's
checks (non-empty, leading `+`, total length 10–16). -/
def nonDigitPhoneRun : SendOutcome :=
  sendMessage true defaultLimCfg defaultBrkCfg (fun _ _ => .ok ["wamid.X"]) 0
    (freshState 0) "+a23456789" "hi" (some .accounts)

/-- The `SendMessageResult` a benign (feature enabled, inputs valid,
breaker `CLOSED`) send produces for a recipients entry, as a function of
the downstream outcome. -/
def expectedSendResult (gen : RecipientRole → String)
    (transport : String → String → TransportOutcome) (now : Int)
    (e : RecipientRole × String) : SendMessageResult :=
  match transport e.2 (gen e.1) with
  | .ok ids =>
    { success := true, messageId := some ("whatsapp-" ++ toString now),
      externalMessageId := ids.head?, recipient := e.2, role := e.1 }
  | .fail cause =>
    { success := false, error := some (handleError cause),
      recipient := e.2, role := e.1 }

/-! ## Theorems -/

/-! ### C1: circuit breaker lifecycle -/

lemma runFailures_cons (cfg : CircuitBreakerConfig) (t : Int) (ts : List Int)
    (b : BreakerState) :
    runFailures cfg (t :: ts) b = runFailures cfg ts (execute cfg b t false).2 := by
  simp [runFailures]

lemma execute_closed_fail_lt (b : BreakerState) (t : Int) (hb : b.state = .CLOSED)
    (hf : b.failures + 1 < 10) (hr : b.requests + 1 ≤ 1000) :
    (execute defaultBrkCfg b t false).2 =
      { b with failures := b.failures + 1, requests := b.requests + 1,
               lastFailureTime := t } := by
  have h1 : ¬ (b.failures + 1 ≥ defaultBrkCfg.failureThreshold) := by
    simp [defaultBrkCfg]; omega
  have h2 : ¬ (b.requests + 1 > 1000) := by omega
  simp [execute, hb, onFailure, cleanOldMetrics, transitionTo, resetCounters, h1, h2]

lemma execute_closed_fail_last (b : BreakerState) (t : Int) (hb : b.state = .CLOSED)
    (hf : b.failures + 1 ≥ 10) :
    ((execute defaultBrkCfg b t false).2).state = .OPEN := by
  have h1 : b.failures + 1 ≥ defaultBrkCfg.failureThreshold := by
    simpa [defaultBrkCfg] using hf
  by_cases h2 : b.requests + 1 > 1000 <;>
    simp [execute, hb, onFailure, cleanOldMetrics, transitionTo, resetCounters, h1, h2]

lemma runFailures_opens (ts : List Int) : ∀ b : BreakerState,
    b.state = .CLOSED → b.failures + ts.length = 10 →
    b.requests + ts.length ≤ 1000 → ts ≠ [] →
    (runFailures defaultBrkCfg ts b).state = .OPEN := by
  induction ts with
  | nil => intro b _ _ _ h; exact absurd rfl h
  | cons t rest ih =>
    intro b hb hf hr _
    rw [runFailures_cons]
    by_cases hrest : rest = []
    · subst hrest
      have := execute_closed_fail_last b t hb (by simp at hf; omega)
      simpa [runFailures] using this
    · have hlen : 0 < rest.length := List.length_pos.mpr hrest
      simp only [List.length_cons] at hf hr
      rw [execute_closed_fail_lt b t hb (by omega) (by omega)]
      exact ih _ (by simp [hb]) (by simp; omega) (by simp; omega) hrest

/-- C1: With the default configuration (`failureThreshold = 10`,
`timeoutMs = 300000`), starting from `CLOSED` with fresh counters, 10
consecutive failed operations drive the breaker to `OPEN`; while `OPEN`,
any call strictly before `timeoutMs` has elapsed since the last failure is
rejected without invoking the operation (state unchanged, rejection
carries the next-attempt time); the first call once `timeoutMs` has
elapsed runs exactly one trial operation — a successful trial moves the
breaker to `CLOSED` with all counters reset, a failing trial moves it back
to `OPEN` (recording the new failure time). -/
theorem whatsAppCircuitBreaker_lifecycle :
    (∀ (t0 : Int) (ts : List Int), ts.length = 10 →
      (runFailures defaultBrkCfg ts (initialBreaker t0)).state = .OPEN)
    ∧ (∀ (b : BreakerState) (now : Int) (opSucceeds : Bool), b.state = .OPEN →
        now - b.lastFailureTime < defaultBrkCfg.timeoutMs →
        execute defaultBrkCfg b now opSucceeds =
          (.rejected (b.lastFailureTime + defaultBrkCfg.timeoutMs), b))
    ∧ (∀ (b : BreakerState) (now : Int), b.state = .OPEN →
        now - b.lastFailureTime ≥ defaultBrkCfg.timeoutMs →
        execute defaultBrkCfg b now true =
          (.ran true,
            { state := .CLOSED, failures := 0, successes := 0, requests := 0,
              lastFailureTime := b.lastFailureTime, stateChangedAt := now }))
    ∧ (∀ (b : BreakerState) (now : Int), b.state = .OPEN →
        now - b.lastFailureTime ≥ defaultBrkCfg.timeoutMs →
        (execute defaultBrkCfg b now false).1 = .ran false
        ∧ ((execute defaultBrkCfg b now false).2).state = .OPEN
        ∧ ((execute defaultBrkCfg b now false).2).lastFailureTime = now) := by
  refine ⟨?_, ?_, ?_, ?_⟩
  · intro t0 ts hlen
    exact runFailures_opens ts (initialBreaker t0) rfl (by simp [initialBreaker, hlen])
      (by simp [initialBreaker, hlen]) (by intro h; simp [h] at hlen)
  · intro b now s hb hlt
    have h1 : ¬ (shouldAttemptReset defaultBrkCfg b now = true) := by
      simp [shouldAttemptReset]; omega
    simp [execute, hb, h1, getNextAttemptTime]
  · intro b now hb hge
    have h1 : shouldAttemptReset defaultBrkCfg b now = true := by
      simp [shouldAttemptReset]; omega
    simp [execute, hb, h1, onSuccess, transitionTo, resetCounters, cleanOldMetrics]
  · intro b now hb hge
    have h1 : shouldAttemptReset defaultBrkCfg b now = true := by
      simp [shouldAttemptReset]; omega
    by_cases h2 : b.requests + 1 > 1000 <;>
      simp [execute, hb, h1, onFailure, transitionTo, resetCounters, cleanOldMetrics, h2]

/-- C1 witness: concrete run — ten failures at time 0 open the breaker; a
call at 299999 is rejected with next-attempt time 300000; a successful
trial at 300000 closes it with counters reset; a failing trial at 300000
reopens it. -/
theorem whatsAppCircuitBreaker_lifecycle_witness :
    (runFailures defaultBrkCfg (List.replicate 10 (0:Int)) (initialBreaker 0)).state = .OPEN
    ∧ execute defaultBrkCfg (runFailures defaultBrkCfg (List.replicate 10 (0:Int)) (initialBreaker 0)) 299999 true
        = (.rejected 300000, runFailures defaultBrkCfg (List.replicate 10 (0:Int)) (initialBreaker 0))
    ∧ execute defaultBrkCfg (runFailures defaultBrkCfg (List.replicate 10 (0:Int)) (initialBreaker 0)) 300000 true
        = (.ran true,
           { state := .CLOSED, failures := 0, successes := 0, requests := 0,
             lastFailureTime := 0, stateChangedAt := 300000 })
    ∧ ((execute defaultBrkCfg (runFailures defaultBrkCfg (List.replicate 10 (0:Int)) (initialBreaker 0)) 300000 false).2).state = .OPEN := by
  have h1 := whatsAppCircuitBreaker_lifecycle.1 0 (List.replicate 10 (0:Int)) (by decide)
  have hbrk : (runFailures defaultBrkCfg (List.replicate 10 (0:Int)) (initialBreaker 0)).lastFailureTime = 0 := by decide
  refine ⟨h1, ?_, ?_, ?_⟩
  · have := whatsAppCircuitBreaker_lifecycle.2.1
      (runFailures defaultBrkCfg (List.replicate 10 (0:Int)) (initialBreaker 0)) 299999 true h1
      (by rw [hbrk]; decide)
    simpa [hbrk] using this
  · have := whatsAppCircuitBreaker_lifecycle.2.2.1
      (runFailures defaultBrkCfg (List.replicate 10 (0:Int)) (initialBreaker 0)) 300000 h1
      (by rw [hbrk]; decide)
    simpa [hbrk] using this
  · exact ((whatsAppCircuitBreaker_lifecycle.2.2.2
      (runFailures defaultBrkCfg (List.replicate 10 (0:Int)) (initialBreaker 0)) 300000 h1
      (by rw [hbrk]; decide))).2.1

/-! ### C2: rate limiter window bound -/

lemma cleanOldRequests_eq_self (cfg : RateLimiterConfig) (now : Int) (reqs : List Int)
    (h : ∀ r ∈ reqs, now - cfg.windowMs < r) :
    cleanOldRequests cfg now reqs = reqs := by
  simp only [cleanOldRequests, List.filter_eq_self, decide_eq_true_eq]
  exact h

lemma waitIfNeeded_record (cfg : RateLimiterConfig) (now : Int) (reqs : List Int)
    (hclean : ∀ r ∈ reqs, now - cfg.windowMs < r)
    (hlen : reqs.length < cfg.maxRequestsPerMinute) :
    (getStatus cfg now reqs).1.current ≠ .limited
    ∧ waitIfNeeded cfg now reqs = { waited := 0, requests := reqs ++ [now] } := by
  have hc := cleanOldRequests_eq_self cfg now reqs hclean
  have hrem : ¬ ((cfg.maxRequestsPerMinute : Int) - reqs.length ≤ 0) := by
    have : (reqs.length : Int) < cfg.maxRequestsPerMinute := by exact_mod_cast hlen
    omega
  have htrim : ¬ (reqs.length + 1 > cfg.maxRequestsPerMinute * 2) := by omega
  constructor
  · by_cases h5 : (cfg.maxRequestsPerMinute : Int) - reqs.length ≤ 5 <;>
      simp [getStatus, hc, hrem, h5]
  · by_cases h5 : (cfg.maxRequestsPerMinute : Int) - reqs.length ≤ 5 <;>
      simp [waitIfNeeded, getStatus, hc, hrem, h5, recordRequest, htrim]

lemma waitIfNeeded_limited (cfg : RateLimiterConfig) (now : Int) (reqs : List Int)
    (hw : 0 < cfg.windowMs)
    (hclean : ∀ r ∈ reqs, now - cfg.windowMs < r)
    (hlen : cfg.maxRequestsPerMinute ≤ reqs.length) :
    (getStatus cfg now reqs).1.current = .limited
    ∧ 0 < (waitIfNeeded cfg now reqs).waited
    ∧ (waitIfNeeded cfg now reqs).requests = reqs := by
  have hc := cleanOldRequests_eq_self cfg now reqs hclean
  have hrem : (cfg.maxRequestsPerMinute : Int) - reqs.length ≤ 0 := by
    have : (cfg.maxRequestsPerMinute : Int) ≤ reqs.length := by exact_mod_cast hlen
    omega
  have hwt : 0 < (match reqs.head? with
      | some oldestRequest => cfg.windowMs - (now - oldestRequest)
      | none => cfg.windowMs) := by
    cases hh : reqs.head? with
    | none => exact hw
    | some r0 =>
      have hr0 : r0 ∈ reqs := List.mem_of_mem_head? hh
      have h1 := hclean r0 hr0
      show 0 < cfg.windowMs - (now - r0)
      omega
  have heq : waitIfNeeded cfg now reqs =
      { waited := max 0 (match reqs.head? with
          | some oldestRequest => cfg.windowMs - (now - oldestRequest)
          | none => cfg.windowMs)
        requests := reqs } := by
    simp [waitIfNeeded, getStatus, hc, hrem]
  refine ⟨by simp [getStatus, hc, hrem], ?_, by rw [heq]⟩
  rw [heq]
  simp only []
  omega

lemma runCalls_span (cfg : RateLimiterConfig) (hw : 0 < cfg.windowMs) :
    ∀ (times reqs : List Int),
    (∀ r ∈ reqs, ∀ t ∈ times, r ≤ t ∧ t - r < cfg.windowMs) →
    (∀ a ∈ times, ∀ b ∈ times, b - a < cfg.windowMs) →
    times.Pairwise (· ≤ ·) →
    reqs.length ≤ cfg.maxRequestsPerMinute →
    (runCalls cfg times reqs).1.length = times.length
    ∧ ∀ i, i < times.length →
      (reqs.length + i < cfg.maxRequestsPerMinute →
        ((runCalls cfg times reqs).1.getD i (.ok, 0)).1 ≠ .limited
        ∧ ((runCalls cfg times reqs).1.getD i (.ok, 0)).2 = 0)
      ∧ (cfg.maxRequestsPerMinute ≤ reqs.length + i →
        ((runCalls cfg times reqs).1.getD i (.ok, 0)).1 = .limited
        ∧ 0 < ((runCalls cfg times reqs).1.getD i (.ok, 0)).2) := by
  intro times
  induction times with
  | nil => intro reqs _ _ _ _; simp [runCalls]
  | cons t ts ih =>
    intro reqs hinv hspan hsort hlen
    have hclean : ∀ r ∈ reqs, t - cfg.windowMs < r := by
      intro r hr
      have := (hinv r hr t (by simp)).2
      omega
    rw [List.pairwise_cons] at hsort
    by_cases hcase : reqs.length < cfg.maxRequestsPerMinute
    · -- permitted immediately, request recorded
      obtain ⟨hnl, hwr⟩ := waitIfNeeded_record cfg t reqs hclean hcase
      have hinv' : ∀ r ∈ reqs ++ [t], ∀ u ∈ ts, r ≤ u ∧ u - r < cfg.windowMs := by
        intro r hr u hu
        rcases List.mem_append.mp hr with hr | hr
        · exact hinv r hr u (by simp [hu])
        · have : r = t := by simpa using hr
          subst this
          exact ⟨hsort.1 u hu, hspan r (by simp) u (by simp [hu])⟩
      have hspan' : ∀ a ∈ ts, ∀ b ∈ ts, b - a < cfg.windowMs := by
        intro a ha b hb
        exact hspan a (by simp [ha]) b (by simp [hb])
      have hlen' : (reqs ++ [t]).length ≤ cfg.maxRequestsPerMinute := by
        simp; omega
      obtain ⟨ihlen, ihmain⟩ := ih (reqs ++ [t]) hinv' hspan' hsort.2 hlen'
      constructor
      · simp [runCalls, hwr, ihlen]
      · intro i hi
        match i with
        | 0 =>
          constructor
          · intro _
            simp only [runCalls, hwr, List.getD_cons_zero]
            exact ⟨hnl, trivial⟩
          · intro hge
            omega
        | Nat.succ j =>
          have hj : j < ts.length := by simpa using hi
          have := ihmain j hj
          constructor
          · intro hlt
            have h1 := this.1 (by simp; omega)
            simpa [runCalls, hwr, List.getD_cons_succ] using h1
          · intro hge
            have h1 := this.2 (by simp; omega)
            simpa [runCalls, hwr, List.getD_cons_succ] using h1
    · -- window exhausted: limited, delayed, not recorded
      push_neg at hcase
      obtain ⟨hl, hpos, hreq⟩ := waitIfNeeded_limited cfg t reqs hw hclean hcase
      have hspan' : ∀ a ∈ ts, ∀ b ∈ ts, b - a < cfg.windowMs := by
        intro a ha b hb
        exact hspan a (by simp [ha]) b (by simp [hb])
      have hinv' : ∀ r ∈ reqs, ∀ u ∈ ts, r ≤ u ∧ u - r < cfg.windowMs := by
        intro r hr u hu
        exact hinv r hr u (by simp [hu])
      obtain ⟨ihlen, ihmain⟩ := ih reqs hinv' hspan' hsort.2 hlen
      constructor
      · simp [runCalls, hreq, ihlen]
      · intro i hi
        match i with
        | 0 =>
          constructor
          · intro hlt; omega
          · intro _
            simp only [runCalls, hreq, List.getD_cons_zero]
            exact ⟨hl, hpos⟩
        | Nat.succ j =>
          have hj : j < ts.length := by simpa using hi
          have := ihmain j hj
          constructor
          · intro hlt; omega
          · intro hge
            have h1 := this.2 (by omega)
            simpa [runCalls, hreq, List.getD_cons_succ] using h1

/-- C2: For every sequence of `waitIfNeeded` calls at monotone times that
all lie within a span shorter than the configured window (every pair of
call times is less than `windowMs` apart), starting from an empty window:
the first `maxRequestsPerMinute` calls are permitted immediately (status
not `limited`, returned wait 0), and every further call in the span is
reported `limited` and is delayed by a positive computed wait time. -/
theorem whatsAppRateLimiter_window_bound (cfg : RateLimiterConfig) (times : List Int)
    (hw : 0 < cfg.windowMs) (hsort : times.Pairwise (· ≤ ·))
    (hspan : ∀ a ∈ times, ∀ b ∈ times, b - a < cfg.windowMs) :
    (runCalls cfg times []).1.length = times.length
    ∧ ∀ i, i < times.length →
      (i < cfg.maxRequestsPerMinute →
        ((runCalls cfg times []).1.getD i (.ok, 0)).1 ≠ .limited
        ∧ ((runCalls cfg times []).1.getD i (.ok, 0)).2 = 0)
      ∧ (cfg.maxRequestsPerMinute ≤ i →
        ((runCalls cfg times []).1.getD i (.ok, 0)).1 = .limited
        ∧ 0 < ((runCalls cfg times []).1.getD i (.ok, 0)).2) := by
  have h := runCalls_span cfg hw times [] (by simp) hspan hsort (by simp)
  refine ⟨h.1, ?_⟩
  intro i hi
  have := h.2 i hi
  simpa using this

/-- C2 witness: 100 calls at time 0 with the default configuration
(80 per 60-second window): call 0 proceeds immediately, call 80 is
limited with a positive delay. -/
theorem whatsAppRateLimiter_window_bound_witness :
    (((runCalls defaultLimCfg (List.replicate 100 0) []).1.getD 0 (.ok, 0)).1 ≠ .limited
      ∧ ((runCalls defaultLimCfg (List.replicate 100 0) []).1.getD 0 (.ok, 0)).2 = 0)
    ∧ (((runCalls defaultLimCfg (List.replicate 100 0) []).1.getD 80 (.ok, 0)).1 = .limited
      ∧ 0 < ((runCalls defaultLimCfg (List.replicate 100 0) []).1.getD 80 (.ok, 0)).2) := by
  have h := whatsAppRateLimiter_window_bound defaultLimCfg (List.replicate 100 0)
    (by decide)
    (List.pairwise_replicate.mpr (Or.inr le_rfl))
    (by
      intro a ha b hb
      rw [List.eq_of_mem_replicate ha, List.eq_of_mem_replicate hb]
      decide)
  exact ⟨(h.2 0 (by simp)).1 (by decide), (h.2 80 (by simp)).2 (by decide)⟩

/-! ### C3: behaviour of `waitIfNeeded` on the exhausted path -/

lemma getStatus_snd (cfg : RateLimiterConfig) (now : Int) (reqs : List Int) :
    (getStatus cfg now reqs).2 = cleanOldRequests cfg now reqs := by
  by_cases h0 : (cfg.maxRequestsPerMinute : Int) - (cleanOldRequests cfg now reqs).length ≤ 0
  · simp [getStatus, h0]
  · by_cases h5 : (cfg.maxRequestsPerMinute : Int) - (cleanOldRequests cfg now reqs).length ≤ 5 <;>
      simp [getStatus, h0, h5]

lemma waitIfNeeded_eq (cfg : RateLimiterConfig) (now : Int) (reqs : List Int) :
    waitIfNeeded cfg now reqs =
      if (getStatus cfg now reqs).1.current = .limited then
        { waited := (getStatus cfg now reqs).1.waitTime.getD 0
          requests := (getStatus cfg now reqs).2 }
      else
        { waited := 0, requests := recordRequest cfg now (getStatus cfg now reqs).2 } := by
  rfl

/-- C3 counterexample: with a window of size 1 holding a request at time 0,
a call at time 1 is limited and sleeps 59999 ms, but the tracked window
afterwards is still `[0]` — the current timestamp 1 was NOT appended,
contradicting the claim that the request is registered before the delivery
operation proceeds. -/
theorem waitIfNeeded_no_registration_counterexample :
    (getStatus { maxRequestsPerMinute := 1 } 1 [0]).1.current = .limited
    ∧ (waitIfNeeded { maxRequestsPerMinute := 1 } 1 [0]).waited = 59999
    ∧ (waitIfNeeded { maxRequestsPerMinute := 1 } 1 [0]).requests = [0]
    ∧ ¬ ((1:Int) ∈ (waitIfNeeded { maxRequestsPerMinute := 1 } 1 [0]).requests) := by
  decide

/-- C3 amended: when the window is exhausted, `waitIfNeeded` sleeps for the
computed wait time (the status's wait — time until the oldest tracked
request exits the window, floored at 0) and returns WITHOUT registering the
request — the stored window is merely the cleaned one; the current
timestamp is appended only on the non-exhausted path.  The actual sleep
adds, when jitter is enabled and the wait exceeds 1 second, up to 10%
random jitter capped at 5 seconds. -/
theorem waitIfNeeded_exhausted_behavior :
    (∀ (cfg : RateLimiterConfig) (now : Int) (reqs : List Int),
      (getStatus cfg now reqs).1.current = .limited →
      waitIfNeeded cfg now reqs =
        { waited := (getStatus cfg now reqs).1.waitTime.getD 0
          requests := cleanOldRequests cfg now reqs })
    ∧ (∀ (cfg : RateLimiterConfig) (now : Int) (reqs : List Int),
      (getStatus cfg now reqs).1.current ≠ .limited →
      waitIfNeeded cfg now reqs =
        { waited := 0
          requests := recordRequest cfg now (cleanOldRequests cfg now reqs) })
    ∧ (∀ (cfg : RateLimiterConfig) (ms : Int) (r : ℚ), 0 ≤ r → r < 1 → 0 ≤ ms →
      (ms : ℚ) ≤ sleepDuration cfg ms r
      ∧ sleepDuration cfg ms r ≤ (ms : ℚ) + min ((ms : ℚ) * (1 / 10)) 5000
      ∧ sleepDuration cfg ms r ≤ (ms : ℚ) + 5000) := by
  refine ⟨?_, ?_, ?_⟩
  · intro cfg now reqs h
    rw [waitIfNeeded_eq, if_pos h, getStatus_snd]
  · intro cfg now reqs h
    rw [waitIfNeeded_eq, if_neg h, getStatus_snd]
  · intro cfg ms r hr0 hr1 hms
    have hmsq : (0:ℚ) ≤ (ms:ℚ) := by exact_mod_cast hms
    have hmin0 : (0:ℚ) ≤ min ((ms : ℚ) * (1 / 10)) 5000 := by
      apply le_min
      · nlinarith
      · norm_num
    by_cases hj : cfg.jitter = true ∧ ms > 1000
    · have hjit : 0 ≤ r * min ((ms : ℚ) * (1 / 10)) 5000 := mul_nonneg hr0 hmin0
      have hjit2 : r * min ((ms : ℚ) * (1 / 10)) 5000 ≤ min ((ms : ℚ) * (1 / 10)) 5000 := by
        nlinarith [min_le_right ((ms : ℚ) * (1 / 10)) (5000:ℚ)]
      have hmin5 : min ((ms : ℚ) * (1 / 10)) 5000 ≤ 5000 := min_le_right _ _
      simp only [sleepDuration, hj, if_pos, and_true]
      rw [max_eq_right (by linarith : (0:ℚ) ≤ (ms : ℚ) + r * min ((ms : ℚ) * (1 / 10)) 5000)]
      refine ⟨by linarith, by linarith, by linarith⟩
    · simp only [sleepDuration]
      rw [if_neg hj]
      rw [max_eq_right hmsq]
      refine ⟨le_rfl, by linarith, by linarith⟩

/-- C3 witness: the amended theorem applied at a concrete exhausted call, a
concrete non-exhausted call, and a concrete jittered sleep. -/
theorem waitIfNeeded_exhausted_behavior_witness :
    waitIfNeeded { maxRequestsPerMinute := 1 } 1 [0] =
      { waited := (getStatus { maxRequestsPerMinute := 1 } 1 [0]).1.waitTime.getD 0
        requests := cleanOldRequests { maxRequestsPerMinute := 1 } 1 [0] }
    ∧ waitIfNeeded defaultLimCfg 0 [] =
      { waited := 0, requests := recordRequest defaultLimCfg 0 (cleanOldRequests defaultLimCfg 0 []) }
    ∧ ((2000:ℚ) ≤ sleepDuration defaultLimCfg 2000 (1/2)
        ∧ sleepDuration defaultLimCfg 2000 (1/2) ≤ (2000:ℚ) + min ((2000:ℚ) * (1/10)) 5000
        ∧ sleepDuration defaultLimCfg 2000 (1/2) ≤ (2000:ℚ) + 5000) :=
  ⟨waitIfNeeded_exhausted_behavior.1 _ 1 [0] (by decide),
   waitIfNeeded_exhausted_behavior.2.1 _ 0 [] (by decide),
   waitIfNeeded_exhausted_behavior.2.2 _ 2000 (1/2) (by norm_num) (by norm_num) (by decide)⟩

/-! ### C4: failure classification -/

/-- C4 counterexample: HTTP 501 is a 5xx status but is classified
`UNKNOWN_ERROR`, not a network/server error; and the error produced for a
circuit-breaker-open rejection does not carry the next-eligible-attempt
time (the `WhatsAppServiceError` class has no such field — `handleError`
builds it from the fixed tuple `('NETWORK_ERROR', undefined, 503)`). -/
theorem handleError_counterexample :
    handleError (.http 501 none) =
      { type := .UNKNOWN_ERROR, httpStatus := some 501 }
    ∧ (handleError (.http 501 none)).type ≠ .NETWORK_ERROR
    ∧ handleError (.breakerOpen 12345) =
      { type := .NETWORK_ERROR, httpStatus := some 503 }
    ∧ (handleError (.breakerOpen 12345)).nextAttemptTime = none := by
  decide

/-- C4 amended: HTTP 401 yields the auth error; 429 yields the rate-limit
error carrying the Retry-After header's seconds (default 60); 400 yields
the validation error; exactly the statuses 500, 502, 503 and 504 yield the
network error (other statuses, including other 5xx such as 501, yield an
unknown error carrying the status); connection refused or timeout yields
the network error; a circuit-breaker-open rejection yields a
`NETWORK_ERROR`-typed error with HTTP status 503 that does NOT carry the
next-eligible-attempt time; anything else yields an unknown error. -/
theorem whatsAppService_error_classification :
    (∀ h, handleError (.http 401 h) = authError)
    ∧ (∀ h, handleError (.http 429 h) = rateLimitError (h.getD 60))
    ∧ (∀ h, handleError (.http 400 h) = validationError)
    ∧ (∀ h s, s = 500 ∨ s = 502 ∨ s = 503 ∨ s = 504 →
        handleError (.http s h) = networkError)
    ∧ (∀ h s, s ≠ 401 → s ≠ 429 → s ≠ 400 →
        ¬ (s = 500 ∨ s = 502 ∨ s = 503 ∨ s = 504) →
        handleError (.http s h) = { type := .UNKNOWN_ERROR, httpStatus := some s })
    ∧ (∀ t, handleError (.breakerOpen t) =
        { type := .NETWORK_ERROR, httpStatus := some 503, nextAttemptTime := none })
    ∧ handleError .connRefused = networkError
    ∧ handleError .timedOut = networkError
    ∧ handleError .otherError = { type := .UNKNOWN_ERROR } := by
  refine ⟨fun h => rfl, fun h => rfl, fun h => rfl, ?_, ?_, fun t => rfl, rfl, rfl, rfl⟩
  · intro h s hs
    rcases hs with rfl | rfl | rfl | rfl <;> rfl
  · intro h s h401 h429 h400 h5xx
    simp [handleError, handleApiError, h401, h429, h400, h5xx]

/-- C4 witness: the amended classification applied at concrete statuses
(429 with header 17, 502, 501) and a concrete breaker-open rejection. -/
theorem whatsAppService_error_classification_witness :
    handleError (.http 429 (some 17)) = rateLimitError 17
    ∧ handleError (.http 502 none) = networkError
    ∧ handleError (.http 501 (some 9)) = { type := .UNKNOWN_ERROR, httpStatus := some 501 }
    ∧ handleError (.breakerOpen 7) =
        { type := .NETWORK_ERROR, httpStatus := some 503, nextAttemptTime := none } :=
  ⟨whatsAppService_error_classification.2.1 (some 17),
   whatsAppService_error_classification.2.2.2.1 none 502 (by norm_num),
   whatsAppService_error_classification.2.2.2.2.1 (some 9) 501
     (by norm_num) (by norm_num) (by norm_num) (by norm_num),
   whatsAppService_error_classification.2.2.2.2.2.1 7⟩

/-! ### C5: sendDealNotifications success counting and isolation -/

lemma onSuccess_closed (b : BreakerState) (now : Int) (hb : b.state = .CLOSED) :
    (onSuccess b now).state = .CLOSED ∧ (onSuccess b now).failures ≤ b.failures := by
  by_cases h : b.requests + 1 > 1000 <;>
    simp [onSuccess, hb, cleanOldMetrics, resetCounters, h]

lemma onFailure_closed (brkCfg : CircuitBreakerConfig) (b : BreakerState) (now : Int)
    (hb : b.state = .CLOSED) (hf : b.failures + 1 < brkCfg.failureThreshold) :
    (onFailure brkCfg b now).state = .CLOSED
    ∧ (onFailure brkCfg b now).failures ≤ b.failures + 1 := by
  have h1 : ¬ (b.failures + 1 ≥ brkCfg.failureThreshold) := by omega
  by_cases h2 : b.requests + 1 > 1000 <;>
    simp [onFailure, hb, cleanOldMetrics, transitionTo, resetCounters, h1, h2]

lemma sendMessage_closed (limCfg : RateLimiterConfig) (brkCfg : CircuitBreakerConfig)
    (transport : String → String → TransportOutcome) (now : Int) (st : SendState)
    (p m : String) (role : Option RecipientRole)
    (hv : validateInputs p m = true) (hb : st.breaker.state = .CLOSED) :
    sendMessage true limCfg brkCfg transport now st p m role =
      { result := match transport p m with
          | .ok ids =>
            { success := true, messageId := some ("whatsapp-" ++ toString now),
              externalMessageId := ids.head?, recipient := p, role := role.getD .accounts }
          | .fail cause =>
            { success := false, error := some (handleError cause),
              recipient := p, role := role.getD .accounts }
        state := { limiter := (waitIfNeeded limCfg now st.limiter).requests,
                   breaker := match transport p m with
                     | .ok _ => onSuccess st.breaker now
                     | .fail _ => onFailure brkCfg st.breaker now }
        transportInvoked := true } := by
  cases ht : transport p m with
  | ok ids => simp [sendMessage, hv, execute, hb, ht]
  | fail cause => simp [sendMessage, hv, execute, hb, ht]

lemma sendDealStep_results (limCfg : RateLimiterConfig) (brkCfg : CircuitBreakerConfig)
    (gen : RecipientRole → String) (transport : String → String → TransportOutcome)
    (now : Int) :
    ∀ (entries : List (RecipientRole × String)) (results : List SendMessageResult)
      (errors : List WhatsAppSvcError) (st : SendState),
    (∀ e ∈ entries, validateInputs e.2 (gen e.1) = true) →
    st.breaker.state = .CLOSED →
    st.breaker.failures + entries.length ≤ brkCfg.failureThreshold →
    (entries.foldl (sendDealStep true limCfg brkCfg gen transport now)
        (results, errors, st)).1 =
      results ++ entries.map (expectedSendResult gen transport now) := by
  intro entries
  induction entries with
  | nil => intro results errors st _ _ _; simp
  | cons e rest ih =>
    intro results errors st hv hb hth
    have hstep := sendMessage_closed limCfg brkCfg transport now st e.2 (gen e.1)
      (some e.1) (hv e (by simp)) hb
    rw [List.foldl_cons]
    by_cases hre : rest = []
    · subst hre
      cases ht : transport e.2 (gen e.1) with
      | ok ids => simp [sendDealStep, hstep, ht, expectedSendResult]
      | fail cause => simp [sendDealStep, hstep, ht, expectedSendResult]
    · have hlen : 0 < rest.length := List.length_pos.mpr hre
      simp only [List.length_cons] at hth
      cases ht : transport e.2 (gen e.1) with
      | ok ids =>
        have hb2 := (onSuccess_closed st.breaker now hb).1
        have hrec := ih
          (results ++ [expectedSendResult gen transport now e])
          errors
          { limiter := (waitIfNeeded limCfg now st.limiter).requests,
            breaker := onSuccess st.breaker now }
          (fun x hx => hv x (by simp [hx]))
          (by simpa using hb2)
          (by
            have hf2 := (onSuccess_closed st.breaker now hb).2
            simp only []
            omega)
        simp only [sendDealStep, hstep, ht, List.map_cons, expectedSendResult]
        simp only [expectedSendResult, ht] at hrec
        simp only [Option.getD_some, Bool.not_true, Bool.false_eq_true, if_false, ite_false]
        rw [hrec]
        simp
      | fail cause =>
        have hflt : st.breaker.failures + 1 < brkCfg.failureThreshold := by omega
        have hb2 := (onFailure_closed brkCfg st.breaker now hb hflt).1
        have hrec := ih
          (results ++ [expectedSendResult gen transport now e])
          (errors ++ [handleError cause])
          { limiter := (waitIfNeeded limCfg now st.limiter).requests,
            breaker := onFailure brkCfg st.breaker now }
          (fun x hx => hv x (by simp [hx]))
          (by simpa using hb2)
          (by
            have hf2 := (onFailure_closed brkCfg st.breaker now hb hflt).2
            simp only []
            omega)
        simp only [sendDealStep, hstep, ht, List.map_cons, expectedSendResult]
        simp only [expectedSendResult, ht] at hrec
        simp only [Option.getD_some, Bool.not_false, if_true, ite_true]
        rw [hrec]
        simp


lemma sendDealNotifications_fresh (recipients : Recipients) (gen : RecipientRole → String)
    (transport : String → String → TransportOutcome) (now t0 : Int) (dealId : String)
    (hv : ∀ e ∈ recipients.entries, validateInputs e.2 (gen e.1) = true) :
    (sendDealNotifications true defaultLimCfg defaultBrkCfg recipients gen
        transport now (freshState t0) dealId).1.results =
      recipients.entries.map (expectedSendResult gen transport now)
    ∧ (sendDealNotifications true defaultLimCfg defaultBrkCfg recipients gen
        transport now (freshState t0) dealId).1.successCount =
      ((recipients.entries.map (expectedSendResult gen transport now)).filter
        (fun r => r.success)).length
    ∧ (sendDealNotifications true defaultLimCfg defaultBrkCfg recipients gen
        transport now (freshState t0) dealId).1.failureCount =
      ((recipients.entries.map (expectedSendResult gen transport now)).filter
        (fun r => !r.success)).length := by
  have h := sendDealStep_results defaultLimCfg defaultBrkCfg gen transport now
    recipients.entries [] [] (freshState t0) hv rfl
    (by norm_num [freshState, initialBreaker, Recipients.entries, defaultBrkCfg])
  refine ⟨?_, ?_, ?_⟩ <;> simp only [sendDealNotifications] <;> rw [h] <;> simp


/-- C5: For a deal with all four recipient roles configured (validating
phone numbers and messages), from fresh limiter/breaker state: a downstream
that succeeds for every role gives `successCount = 4, failureCount = 0`; a
downstream that fails for exactly one role gives `successCount = 3,
failureCount = 1`, and the results for the other three roles are identical
to the all-success run — no cancellation propagates between roles. -/
theorem sendDealNotifications_success_and_isolation
    (recipients : Recipients) (gen : RecipientRole → String)
    (transport transportOneFail : String → String → TransportOutcome)
    (now t0 : Int) (dealId : String) (r0 : RecipientRole)
    (hv : ∀ e ∈ recipients.entries, validateInputs e.2 (gen e.1) = true)
    (hok : ∀ e ∈ recipients.entries, ∃ ids, transport e.2 (gen e.1) = .ok ids)
    (hfail : ∀ e ∈ recipients.entries, e.1 = r0 →
      ∃ c, transportOneFail e.2 (gen e.1) = .fail c)
    (hsame : ∀ e ∈ recipients.entries, e.1 ≠ r0 →
      transportOneFail e.2 (gen e.1) = transport e.2 (gen e.1)) :
    (sendDealNotifications true defaultLimCfg defaultBrkCfg recipients gen
        transport now (freshState t0) dealId).1.successCount = 4
    ∧ (sendDealNotifications true defaultLimCfg defaultBrkCfg recipients gen
        transport now (freshState t0) dealId).1.failureCount = 0
    ∧ (sendDealNotifications true defaultLimCfg defaultBrkCfg recipients gen
        transportOneFail now (freshState t0) dealId).1.successCount = 3
    ∧ (sendDealNotifications true defaultLimCfg defaultBrkCfg recipients gen
        transportOneFail now (freshState t0) dealId).1.failureCount = 1
    ∧ ∀ i, i < 4 → (recipients.entries.getD i (.accounts, "")).1 ≠ r0 →
        (sendDealNotifications true defaultLimCfg defaultBrkCfg recipients gen
            transportOneFail now (freshState t0) dealId).1.results.getD i dfltResult =
        (sendDealNotifications true defaultLimCfg defaultBrkCfg recipients gen
            transport now (freshState t0) dealId).1.results.getD i dfltResult := by
  obtain ⟨h1res, h1s, h1f⟩ :=
    sendDealNotifications_fresh recipients gen transport now t0 dealId hv
  obtain ⟨h2res, h2s, h2f⟩ :=
    sendDealNotifications_fresh recipients gen transportOneFail now t0 dealId hv
  obtain ⟨idsA, hA⟩ := hok (.accounts, recipients.accounts) (by simp [Recipients.entries])
  obtain ⟨idsL, hL⟩ := hok (.logistics, recipients.logistics) (by simp [Recipients.entries])
  obtain ⟨idsB, hB⟩ := hok (.boss1, recipients.boss1) (by simp [Recipients.entries])
  obtain ⟨idsO, hO⟩ := hok (.bossog, recipients.bossog) (by simp [Recipients.entries])
  refine ⟨?_, ?_, ?_, ?_, ?_⟩
  · rw [h1s]
    simp [Recipients.entries, expectedSendResult, hA, hL, hB, hO]
  · rw [h1f]
    simp [Recipients.entries, expectedSendResult, hA, hL, hB, hO]
  · rw [h2s]
    cases r0 with
    | accounts =>
      obtain ⟨c, hc⟩ := hfail (.accounts, recipients.accounts) (by simp [Recipients.entries]) rfl
      have e2 := hsame (.logistics, recipients.logistics) (by simp [Recipients.entries]) (by simp)
      have e3 := hsame (.boss1, recipients.boss1) (by simp [Recipients.entries]) (by simp)
      have e4 := hsame (.bossog, recipients.bossog) (by simp [Recipients.entries]) (by simp)
      simp [Recipients.entries, expectedSendResult, hc, e2, e3, e4, hA, hL, hB, hO]
    | logistics =>
      obtain ⟨c, hc⟩ := hfail (.logistics, recipients.logistics) (by simp [Recipients.entries]) rfl
      have e1 := hsame (.accounts, recipients.accounts) (by simp [Recipients.entries]) (by simp)
      have e3 := hsame (.boss1, recipients.boss1) (by simp [Recipients.entries]) (by simp)
      have e4 := hsame (.bossog, recipients.bossog) (by simp [Recipients.entries]) (by simp)
      simp [Recipients.entries, expectedSendResult, hc, e1, e3, e4, hA, hL, hB, hO]
    | boss1 =>
      obtain ⟨c, hc⟩ := hfail (.boss1, recipients.boss1) (by simp [Recipients.entries]) rfl
      have e1 := hsame (.accounts, recipients.accounts) (by simp [Recipients.entries]) (by simp)
      have e2 := hsame (.logistics, recipients.logistics) (by simp [Recipients.entries]) (by simp)
      have e4 := hsame (.bossog, recipients.bossog) (by simp [Recipients.entries]) (by simp)
      simp [Recipients.entries, expectedSendResult, hc, e1, e2, e4, hA, hL, hB, hO]
    | bossog =>
      obtain ⟨c, hc⟩ := hfail (.bossog, recipients.bossog) (by simp [Recipients.entries]) rfl
      have e1 := hsame (.accounts, recipients.accounts) (by simp [Recipients.entries]) (by simp)
      have e2 := hsame (.logistics, recipients.logistics) (by simp [Recipients.entries]) (by simp)
      have e3 := hsame (.boss1, recipients.boss1) (by simp [Recipients.entries]) (by simp)
      simp [Recipients.entries, expectedSendResult, hc, e1, e2, e3, hA, hL, hB, hO]
  · rw [h2f]
    cases r0 with
    | accounts =>
      obtain ⟨c, hc⟩ := hfail (.accounts, recipients.accounts) (by simp [Recipients.entries]) rfl
      have e2 := hsame (.logistics, recipients.logistics) (by simp [Recipients.entries]) (by simp)
      have e3 := hsame (.boss1, recipients.boss1) (by simp [Recipients.entries]) (by simp)
      have e4 := hsame (.bossog, recipients.bossog) (by simp [Recipients.entries]) (by simp)
      simp [Recipients.entries, expectedSendResult, hc, e2, e3, e4, hA, hL, hB, hO]
    | logistics =>
      obtain ⟨c, hc⟩ := hfail (.logistics, recipients.logistics) (by simp [Recipients.entries]) rfl
      have e1 := hsame (.accounts, recipients.accounts) (by simp [Recipients.entries]) (by simp)
      have e3 := hsame (.boss1, recipients.boss1) (by simp [Recipients.entries]) (by simp)
      have e4 := hsame (.bossog, recipients.bossog) (by simp [Recipients.entries]) (by simp)
      simp [Recipients.entries, expectedSendResult, hc, e1, e3, e4, hA, hL, hB, hO]
    | boss1 =>
      obtain ⟨c, hc⟩ := hfail (.boss1, recipients.boss1) (by simp [Recipients.entries]) rfl
      have e1 := hsame (.accounts, recipients.accounts) (by simp [Recipients.entries]) (by simp)
      have e2 := hsame (.logistics, recipients.logistics) (by simp [Recipients.entries]) (by simp)
      have e4 := hsame (.bossog, recipients.bossog) (by simp [Recipients.entries]) (by simp)
      simp [Recipients.entries, expectedSendResult, hc, e1, e2, e4, hA, hL, hB, hO]
    | bossog =>
      obtain ⟨c, hc⟩ := hfail (.bossog, recipients.bossog) (by simp [Recipients.entries]) rfl
      have e1 := hsame (.accounts, recipients.accounts) (by simp [Recipients.entries]) (by simp)
      have e2 := hsame (.logistics, recipients.logistics) (by simp [Recipients.entries]) (by simp)
      have e3 := hsame (.boss1, recipients.boss1) (by simp [Recipients.entries]) (by simp)
      simp [Recipients.entries, expectedSendResult, hc, e1, e2, e3, hA, hL, hB, hO]
  · intro i hi hne
    rw [h1res, h2res]
    interval_cases i
    · simp only [Recipients.entries, List.getD_cons_zero] at hne ⊢
      have h : transportOneFail recipients.accounts (gen RecipientRole.accounts) =
          transport recipients.accounts (gen RecipientRole.accounts) :=
        hsame (.accounts, recipients.accounts) (by simp [Recipients.entries]) hne
      simp [expectedSendResult, h]
    · simp only [Recipients.entries, List.getD_cons_succ, List.getD_cons_zero] at hne ⊢
      have h : transportOneFail recipients.logistics (gen RecipientRole.logistics) =
          transport recipients.logistics (gen RecipientRole.logistics) :=
        hsame (.logistics, recipients.logistics) (by simp [Recipients.entries]) hne
      simp [expectedSendResult, h]
    · simp only [Recipients.entries, List.getD_cons_succ, List.getD_cons_zero] at hne ⊢
      have h : transportOneFail recipients.boss1 (gen RecipientRole.boss1) =
          transport recipients.boss1 (gen RecipientRole.boss1) :=
        hsame (.boss1, recipients.boss1) (by simp [Recipients.entries]) hne
      simp [expectedSendResult, h]
    · simp only [Recipients.entries, List.getD_cons_succ, List.getD_cons_zero] at hne ⊢
      have h : transportOneFail recipients.bossog (gen RecipientRole.bossog) =
          transport recipients.bossog (gen RecipientRole.bossog) :=
        hsame (.bossog, recipients.bossog) (by simp [Recipients.entries]) hne
      simp [expectedSendResult, h]


/-- C5 witness: concrete four-recipient configuration; the one-failure
downstream fails exactly for `bossog`'s phone number. -/
theorem sendDealNotifications_success_and_isolation_witness :
    (sendDealNotifications true defaultLimCfg defaultBrkCfg
        { accounts := "+12345678901", logistics := "+12345678902",
          boss1 := "+12345678903", bossog := "+12345678904" }
        (fun _ => "hello") (fun _ _ => .ok ["id1"]) 0 (freshState 0) "D").1.successCount = 4
    ∧ (sendDealNotifications true defaultLimCfg defaultBrkCfg
        { accounts := "+12345678901", logistics := "+12345678902",
          boss1 := "+12345678903", bossog := "+12345678904" }
        (fun _ => "hello") (fun _ _ => .ok ["id1"]) 0 (freshState 0) "D").1.failureCount = 0
    ∧ (sendDealNotifications true defaultLimCfg defaultBrkCfg
        { accounts := "+12345678901", logistics := "+12345678902",
          boss1 := "+12345678903", bossog := "+12345678904" }
        (fun _ => "hello")
        (fun p _ => if p = "+12345678904" then .fail .otherError else .ok ["id1"])
        0 (freshState 0) "D").1.successCount = 3
    ∧ (sendDealNotifications true defaultLimCfg defaultBrkCfg
        { accounts := "+12345678901", logistics := "+12345678902",
          boss1 := "+12345678903", bossog := "+12345678904" }
        (fun _ => "hello")
        (fun p _ => if p = "+12345678904" then .fail .otherError else .ok ["id1"])
        0 (freshState 0) "D").1.failureCount = 1
    ∧ (sendDealNotifications true defaultLimCfg defaultBrkCfg
        { accounts := "+12345678901", logistics := "+12345678902",
          boss1 := "+12345678903", bossog := "+12345678904" }
        (fun _ => "hello")
        (fun p _ => if p = "+12345678904" then .fail .otherError else .ok ["id1"])
        0 (freshState 0) "D").1.results.getD 0 dfltResult =
      (sendDealNotifications true defaultLimCfg defaultBrkCfg
        { accounts := "+12345678901", logistics := "+12345678902",
          boss1 := "+12345678903", bossog := "+12345678904" }
        (fun _ => "hello") (fun _ _ => .ok ["id1"]) 0 (freshState 0) "D").1.results.getD 0 dfltResult := by
  have h := sendDealNotifications_success_and_isolation
    { accounts := "+12345678901", logistics := "+12345678902",
      boss1 := "+12345678903", bossog := "+12345678904" }
    (fun _ => "hello") (fun _ _ => .ok ["id1"])
    (fun p _ => if p = "+12345678904" then .fail .otherError else .ok ["id1"])
    0 0 "D" .bossog
    (by decide)
    (by intro e he; exact ⟨["id1"], rfl⟩)
    (by
      intro e he hr
      fin_cases he
      · exact absurd hr (by decide)
      · exact absurd hr (by decide)
      · exact absurd hr (by decide)
      · exact ⟨.otherError, by decide⟩)
    (by
      intro e he hr
      fin_cases he
      · decide
      · decide
      · decide
      · exact absurd rfl hr)
  exact ⟨h.1, h.2.1, h.2.2.1, h.2.2.2.1, h.2.2.2.2 0 (by norm_num) (by decide)⟩

/-! ### C6-C10: send pipeline, deal service, messaging validation -/

/-- C6 counterexample: the phone number "+a23456789" violates the claimed
rule (a `+` followed by 10-15 digits: it has 9 trailing characters and they
are not all digits), yet `validateInputs` accepts it — the code checks only
non-emptiness, the leading `+`, and total length 10-16 — and the send
proceeds to invoke the downstream transport successfully instead of
failing fast with a validation error. -/
theorem validateInputs_spec_rule_counterexample :
    specPhoneRule "+a23456789" = false
    ∧ validateInputs "+a23456789" "hi" = true
    ∧ nonDigitPhoneRun.transportInvoked = true
    ∧ nonDigitPhoneRun.result.success = true := by
  decide

/-- C6 amended: for every call to `sendMessage`, the phone number (must be
non-empty, start with `+`, and have total length between 10 and 16
characters — the count includes the `+` and the characters after it need
not be digits) and the message (non-empty, at most 4096 characters) are
validated before any network attempt; a violating input fails fast with a
validation error, the downstream transport is never invoked, and the
shared limiter/breaker state is untouched. -/
theorem sendMessage_validation_failfast (limCfg : RateLimiterConfig)
    (brkCfg : CircuitBreakerConfig) (transport : String → String → TransportOutcome)
    (now : Int) (st : SendState) (p m : String) (role : Option RecipientRole)
    (hv : validateInputs p m = false) :
    sendMessage true limCfg brkCfg transport now st p m role =
      { result := { success := false, error := some validationError,
                    recipient := p, role := role.getD .accounts }
        state := st, transportInvoked := false } := by
  simp [sendMessage, hv]

/-- C6 witness: a phone number without a leading `+` fails validation
and the transport is never invoked. -/
theorem sendMessage_validation_failfast_witness :
    sendMessage true defaultLimCfg defaultBrkCfg (fun _ _ => .ok ["id"]) 0
        (freshState 0) "12345678901" "hello" (some .boss1) =
      { result := { success := false, error := some validationError,
                    recipient := "12345678901", role := .boss1 }
        state := freshState 0, transportInvoked := false } :=
  sendMessage_validation_failfast defaultLimCfg defaultBrkCfg _ 0 (freshState 0)
    "12345678901" "hello" (some .boss1) (by decide)

/-- C7 (code bug): with `bossog`'s phone number omitted (empty) in the
configuration, `sendDealNotifications` does NOT skip the role: it iterates
all of `Object.entries(config.recipients)`, so the empty-phone role is
attempted, fails input validation, and contributes an attempt and a
failure (`results.length = 4`, `failureCount = 1`) to the aggregate
result — contradicting the spec's "optional — omit to skip that role"
and the config module's own "allow empty values for disabled roles". -/
theorem sendDealNotifications_empty_role_attempted :
    emptyRoleRun.results.length = 4
    ∧ emptyRoleRun.successCount = 3
    ∧ emptyRoleRun.failureCount = 1
    ∧ (emptyRoleRun.results.getD 3 dfltResult).role = .bossog
    ∧ (emptyRoleRun.results.getD 3 dfltResult).recipient = ""
    ∧ (emptyRoleRun.results.getD 3 dfltResult).success = false
    ∧ (emptyRoleRun.results.getD 3 dfltResult).error = some validationError := by
  decide


lemma dealId_ne_empty (now : Int) (suffix : String) :
    ("DEAL-" ++ toString now ++ "-" ++ suffix) ≠ "" := by
  intro h
  have hd := congrArg String.data h
  simp [String.data_append] at hd

/-- C8: for every deal input and every notification outcome — the
pipeline returning a result or throwing — `createDeal` returns
`success = true` with a non-empty generated deal id, and the notification
outcome is reported in the structured `whatsappResults` summary (counts
and error records; `enabled: false` when the feature toggle is off;
`failureCount: 4` with a single catch-all record when the whole pipeline
throws) rather than as a failure of the primary operation. -/
theorem createDeal_nonfatal_notifications :
    ∀ (enabled : Bool) (now : Int) (randSuffix : String)
      (notify : Except String (BulkSendResult × List BulkErrRecipient)),
    (createDeal enabled now randSuffix notify).success = true
    ∧ (createDeal enabled now randSuffix notify).dealId ≠ ""
    ∧ (createDeal enabled now randSuffix notify).whatsappResults.isSome = true
    ∧ (∀ res errs, enabled = true → notify = .ok (res, errs) →
        (createDeal enabled now randSuffix notify).whatsappResults =
          some { enabled := true, success := decide (res.successCount > 0),
                 successCount := res.successCount, failureCount := res.failureCount,
                 errors := errs.map (fun e => ⟨e.recipient.getD "unknown", "unknown"⟩) })
    ∧ (∀ msg, enabled = true → notify = .error msg →
        (createDeal enabled now randSuffix notify).whatsappResults =
          some { enabled := true, success := false, successCount := 0,
                 failureCount := 4, errors := [⟨"all", "all"⟩] })
    ∧ (enabled = false →
        (createDeal enabled now randSuffix notify).whatsappResults =
          some { enabled := false, success := false, successCount := 0,
                 failureCount := 0, errors := [] }) := by
  intro enabled now randSuffix notify
  refine ⟨rfl, dealId_ne_empty now randSuffix, ?_, ?_, ?_, ?_⟩
  · cases enabled <;> cases notify <;> simp [createDeal]
  · intro res errs he hn
    subst he; subst hn
    simp [createDeal]
  · intro msg he hn
    subst he; subst hn
    simp [createDeal]
  · intro he
    subst he
    simp [createDeal]

/-- C8 witness: a concrete deal whose notification pipeline throws still
creates the deal, with the failure reported in `whatsappResults`. -/
theorem createDeal_nonfatal_notifications_witness :
    (createDeal true 5 "ABC123" (.error "boom")).success = true
    ∧ (createDeal true 5 "ABC123" (.error "boom")).dealId ≠ ""
    ∧ (createDeal true 5 "ABC123" (.error "boom")).whatsappResults =
        some { enabled := true, success := false, successCount := 0,
               failureCount := 4, errors := [⟨"all", "all"⟩] } := by
  have h := createDeal_nonfatal_notifications true 5 "ABC123" (.error "boom")
  exact ⟨h.1, h.2.1, h.2.2.2.2.1 "boom" rfl rfl⟩


/-- C9: every partial deal whose `materialSource` is `new-material` and
whose `purchaseRate` is missing or not positive is rejected by messaging
validation with an itemized error list containing the error naming the
purchase rate, and `getMessagePreviews` throws (returns `.error`) before
any template rendering — uniformly in the renderer. -/
theorem validateDeal_missing_purchase_rate
    (deal : PartialDeal) (render : PartialDeal → RecipientRole → String)
    (hm : deal.materialSource = some .newMaterial)
    (hp : deal.purchaseRate = none ∨ ∃ v, deal.purchaseRate = some v ∧ v ≤ 0) :
    "Purchase rate is required for new material" ∈ validateDealForMessaging deal
    ∧ ∃ msg, getMessagePreviews render deal = .error msg := by
  have hnum : numMissingOrNonpos deal.purchaseRate = true := by
    rcases hp with h | ⟨v, hv, hle⟩
    · simp [numMissingOrNonpos, h]
    · simp [numMissingOrNonpos, hv, hle]
  have hmem : "Purchase rate is required for new material" ∈ validateDealForMessaging deal := by
    simp [validateDealForMessaging, hm, hnum]
  refine ⟨hmem, ?_⟩
  have hlen : 0 < (validateDealForMessaging deal).length :=
    List.length_pos.mpr (List.ne_nil_of_mem hmem)
  simp only [getMessagePreviews, if_pos hlen]
  exact ⟨_, rfl⟩

/-- C9 witness: the all-fields-missing new-material deal. -/
theorem validateDeal_missing_purchase_rate_witness :
    "Purchase rate is required for new material" ∈
      validateDealForMessaging { materialSource := some .newMaterial }
    ∧ ∃ msg, getMessagePreviews (fun _ _ => "")
        { materialSource := some .newMaterial } = .error msg :=
  validateDeal_missing_purchase_rate { materialSource := some .newMaterial }
    (fun _ _ => "") rfl (Or.inl rfl)


lemma sendMessage_disabled (limCfg : RateLimiterConfig) (brkCfg : CircuitBreakerConfig)
    (transport : String → String → TransportOutcome) (now : Int) (st : SendState)
    (p m : String) (role : Option RecipientRole) :
    sendMessage false limCfg brkCfg transport now st p m role =
      { result := { success := false, error := some validationError,
                    recipient := p, role := role.getD .accounts }
        state := st, transportInvoked := false } := by
  simp [sendMessage]

lemma sendMessage_invalid (limCfg : RateLimiterConfig) (brkCfg : CircuitBreakerConfig)
    (transport : String → String → TransportOutcome) (now : Int) (st : SendState)
    (p m : String) (role : Option RecipientRole) (hv : validateInputs p m = false) :
    sendMessage true limCfg brkCfg transport now st p m role =
      { result := { success := false, error := some validationError,
                    recipient := p, role := role.getD .accounts }
        state := st, transportInvoked := false } := by
  simp [sendMessage, hv]

lemma sendMessage_rejected (limCfg : RateLimiterConfig) (brkCfg : CircuitBreakerConfig)
    (transport : String → String → TransportOutcome) (now : Int) (st : SendState)
    (p m : String) (role : Option RecipientRole)
    (hv : validateInputs p m = true)
    (hrej : st.breaker.state = .OPEN ∧ now - st.breaker.lastFailureTime < brkCfg.timeoutMs) :
    sendMessage true limCfg brkCfg transport now st p m role =
      { result := { success := false,
                    error := some (handleError
                      (.breakerOpen (st.breaker.lastFailureTime + brkCfg.timeoutMs))),
                    recipient := p, role := role.getD .accounts }
        state := { limiter := (waitIfNeeded limCfg now st.limiter).requests,
                   breaker := st.breaker }
        transportInvoked := false } := by
  have hcond : st.breaker.state = .OPEN ∧ shouldAttemptReset brkCfg st.breaker now = false := by
    refine ⟨hrej.1, ?_⟩
    have := hrej.2
    simp only [shouldAttemptReset, decide_eq_false_iff_not]
    omega
  simp [sendMessage, hv, execute, hcond, getNextAttemptTime]

lemma sendMessage_runs (limCfg : RateLimiterConfig) (brkCfg : CircuitBreakerConfig)
    (transport : String → String → TransportOutcome) (now : Int) (st : SendState)
    (p m : String) (role : Option RecipientRole)
    (hv : validateInputs p m = true)
    (hnrej : ¬ (st.breaker.state = .OPEN ∧ now - st.breaker.lastFailureTime < brkCfg.timeoutMs)) :
    (sendMessage true limCfg brkCfg transport now st p m role).result =
      (match transport p m with
       | .ok ids =>
         { success := true, messageId := some ("whatsapp-" ++ toString now),
           externalMessageId := ids.head?, recipient := p, role := role.getD .accounts }
       | .fail cause =>
         { success := false, error := some (handleError cause),
           recipient := p, role := role.getD .accounts })
    ∧ (sendMessage true limCfg brkCfg transport now st p m role).transportInvoked = true := by
  have hcond : ¬ (st.breaker.state = .OPEN ∧ shouldAttemptReset brkCfg st.breaker now = false) := by
    intro hh
    apply hnrej
    refine ⟨hh.1, ?_⟩
    have := hh.2
    simp only [shouldAttemptReset, decide_eq_false_iff_not] at this
    omega
  cases ht : transport p m with
  | ok ids => simp [sendMessage, hv, execute, hcond, ht]
  | fail cause => simp [sendMessage, hv, execute, hcond, ht]


lemma sendMessage_role (enabled : Bool) (limCfg : RateLimiterConfig)
    (brkCfg : CircuitBreakerConfig) (transport : String → String → TransportOutcome)
    (now : Int) (st : SendState) (p m : String) (r : RecipientRole) :
    (sendMessage enabled limCfg brkCfg transport now st p m (some r)).result.role = r := by
  cases enabled
  · simp [sendMessage_disabled]
  · by_cases hv : validateInputs p m = true
    · by_cases hrej : st.breaker.state = .OPEN ∧ now - st.breaker.lastFailureTime < brkCfg.timeoutMs
      · simp [sendMessage_rejected limCfg brkCfg transport now st p m (some r) hv hrej]
      · have h := (sendMessage_runs limCfg brkCfg transport now st p m (some r) hv hrej).1
        rw [h]
        cases transport p m <;> simp
    · have hv2 : validateInputs p m = false := by
        cases hvv : validateInputs p m
        · rfl
        · exact absurd hvv hv
      simp [sendMessage_invalid limCfg brkCfg transport now st p m (some r) hv2]

lemma filter_partition_length (l : List SendMessageResult) :
    (l.filter (fun r => r.success)).length + (l.filter (fun r => !r.success)).length
      = l.length := by
  induction l with
  | nil => simp
  | cons a t ih =>
    by_cases h : a.success <;> simp [List.filter_cons, h] <;> omega

lemma sendDealStep_roles (enabled : Bool) (limCfg : RateLimiterConfig)
    (brkCfg : CircuitBreakerConfig) (gen : RecipientRole → String)
    (transport : String → String → TransportOutcome) (now : Int) :
    ∀ (entries : List (RecipientRole × String))
      (acc : List SendMessageResult × List WhatsAppSvcError × SendState),
    ((entries.foldl (sendDealStep enabled limCfg brkCfg gen transport now) acc).1).map
        (fun r => r.role)
      = acc.1.map (fun r => r.role) ++ entries.map (fun e => e.1) := by
  intro entries
  induction entries with
  | nil => intro acc; simp
  | cons e rest ih =>
    intro acc
    rw [List.foldl_cons, ih]
    simp [sendDealStep, sendMessage_role]


/-- C10 counterexample: a downstream call that returns 2xx with an empty
`messages` array yields `success = true` but NO external message
identifier (`externalMessageId = none`, from `response.messages[0]?.id`),
contradicting the claim that every 2xx outcome carries one. -/
theorem sendMessage_empty_messages_counterexample :
    emptyMessagesRun.result.success = true
    ∧ emptyMessagesRun.result.externalMessageId = none := by
  decide

/-- C10 amended: `sendMessage` never throws — it always returns a
`SendMessageResult`, with `error = none` on success and a classified
`WhatsAppError` on every failure; `success = true` exactly when the
feature is enabled, the inputs validate, the breaker does not reject, and
the downstream returns 2xx; on a 2xx outcome the external message
identifier is the response's FIRST message id when the `messages` array is
non-empty (and absent when it is empty); consequently every configured
role appears exactly once, in entry order, in `sendDealNotifications`'
results, and `successCount + failureCount` equals the number of
results. -/
theorem sendMessage_totality_and_accounting :
    (∀ (enabled : Bool) (limCfg : RateLimiterConfig) (brkCfg : CircuitBreakerConfig)
       (transport : String → String → TransportOutcome) (now : Int) (st : SendState)
       (p m : String) (role : Option RecipientRole),
      ((sendMessage enabled limCfg brkCfg transport now st p m role).result.success = true
        ∧ (sendMessage enabled limCfg brkCfg transport now st p m role).result.error = none)
      ∨ ((sendMessage enabled limCfg brkCfg transport now st p m role).result.success = false
        ∧ ∃ e, (sendMessage enabled limCfg brkCfg transport now st p m role).result.error = some e))
    ∧ (∀ (enabled : Bool) (limCfg : RateLimiterConfig) (brkCfg : CircuitBreakerConfig)
       (transport : String → String → TransportOutcome) (now : Int) (st : SendState)
       (p m : String) (role : Option RecipientRole),
      (sendMessage enabled limCfg brkCfg transport now st p m role).result.success = true ↔
        (enabled = true ∧ validateInputs p m = true
          ∧ ¬ (st.breaker.state = .OPEN ∧ now - st.breaker.lastFailureTime < brkCfg.timeoutMs)
          ∧ ∃ ids, transport p m = .ok ids))
    ∧ (∀ (limCfg : RateLimiterConfig) (brkCfg : CircuitBreakerConfig)
       (transport : String → String → TransportOutcome) (now : Int) (st : SendState)
       (p m : String) (role : Option RecipientRole) (ids : List String),
      validateInputs p m = true →
      ¬ (st.breaker.state = .OPEN ∧ now - st.breaker.lastFailureTime < brkCfg.timeoutMs) →
      transport p m = .ok ids →
      (sendMessage true limCfg brkCfg transport now st p m role).result.externalMessageId
        = ids.head?)
    ∧ (∀ (enabled : Bool) (limCfg : RateLimiterConfig) (brkCfg : CircuitBreakerConfig)
       (recipients : Recipients) (gen : RecipientRole → String)
       (transport : String → String → TransportOutcome) (now : Int) (st : SendState)
       (dealId : String),
      (sendDealNotifications enabled limCfg brkCfg recipients gen transport now st
          dealId).1.successCount
        + (sendDealNotifications enabled limCfg brkCfg recipients gen transport now st
          dealId).1.failureCount
        = (sendDealNotifications enabled limCfg brkCfg recipients gen transport now st
          dealId).1.results.length
      ∧ (sendDealNotifications enabled limCfg brkCfg recipients gen transport now st
          dealId).1.results.map (fun r => r.role)
        = [.accounts, .logistics, .boss1, .bossog]) := by
  refine ⟨?_, ?_, ?_, ?_⟩
  · intro enabled limCfg brkCfg transport now st p m role
    cases enabled
    · right
      simp [sendMessage_disabled]
    · by_cases hv : validateInputs p m = true
      · by_cases hrej : st.breaker.state = .OPEN ∧ now - st.breaker.lastFailureTime < brkCfg.timeoutMs
        · right
          simp [sendMessage_rejected limCfg brkCfg transport now st p m role hv hrej]
        · have h := (sendMessage_runs limCfg brkCfg transport now st p m role hv hrej).1
          rw [h]
          cases transport p m
          · left; simp
          · right; simp
      · right
        have hv2 : validateInputs p m = false := by
          cases hvv : validateInputs p m
          · rfl
          · exact absurd hvv hv
        simp [sendMessage_invalid limCfg brkCfg transport now st p m role hv2]
  · intro enabled limCfg brkCfg transport now st p m role
    cases enabled
    · simp [sendMessage_disabled]
    · by_cases hv : validateInputs p m = true
      · by_cases hrej : st.breaker.state = .OPEN ∧ now - st.breaker.lastFailureTime < brkCfg.timeoutMs
        · simp [sendMessage_rejected limCfg brkCfg transport now st p m role hv hrej, hrej]
        · have h := (sendMessage_runs limCfg brkCfg transport now st p m role hv hrej).1
          rw [h]
          cases ht : transport p m with
          | ok ids => simp [hv, hrej, ht]
          | fail cause =>
            simp only [hv, hrej, true_and, not_false_iff]
            simp [ht]
      · have hv2 : validateInputs p m = false := by
          cases hvv : validateInputs p m
          · rfl
          · exact absurd hvv hv
        simp [sendMessage_invalid limCfg brkCfg transport now st p m role hv2, hv2]
  · intro limCfg brkCfg transport now st p m role ids hv hrej ht
    have h := (sendMessage_runs limCfg brkCfg transport now st p m role hv hrej).1
    rw [h, ht]
  · intro enabled limCfg brkCfg recipients gen transport now st dealId
    constructor
    · simp only [sendDealNotifications]
      exact filter_partition_length _
    · simp only [sendDealNotifications]
      rw [sendDealStep_roles enabled limCfg brkCfg gen transport now recipients.entries
        ([], [], st)]
      simp [Recipients.entries]


/-- C10 witness: concrete sends — a 2xx with one message id yields that
id; a refused connection yields `success = false`; a concrete bulk run
satisfies the count equation and per-role listing. -/
theorem sendMessage_totality_and_accounting_witness :
    (sendMessage true defaultLimCfg defaultBrkCfg (fun _ _ => .ok ["wamid.1"]) 0
        (freshState 0) "+12345678901" "hello" (some .accounts)).result.externalMessageId
      = some "wamid.1"
    ∧ (sendMessage true defaultLimCfg defaultBrkCfg (fun _ _ => .fail .connRefused) 0
        (freshState 0) "+12345678901" "hello" (some .accounts)).result.success = false
    ∧ ((sendDealNotifications true defaultLimCfg defaultBrkCfg
          { accounts := "+12345678901", logistics := "+12345678902",
            boss1 := "+12345678903", bossog := "+12345678904" }
          (fun _ => "hello") (fun _ _ => .ok []) 0 (freshState 0) "D").1.successCount
        + (sendDealNotifications true defaultLimCfg defaultBrkCfg
          { accounts := "+12345678901", logistics := "+12345678902",
            boss1 := "+12345678903", bossog := "+12345678904" }
          (fun _ => "hello") (fun _ _ => .ok []) 0 (freshState 0) "D").1.failureCount
        = (sendDealNotifications true defaultLimCfg defaultBrkCfg
          { accounts := "+12345678901", logistics := "+12345678902",
            boss1 := "+12345678903", bossog := "+12345678904" }
          (fun _ => "hello") (fun _ _ => .ok []) 0 (freshState 0) "D").1.results.length
      ∧ (sendDealNotifications true defaultLimCfg defaultBrkCfg
          { accounts := "+12345678901", logistics := "+12345678902",
            boss1 := "+12345678903", bossog := "+12345678904" }
          (fun _ => "hello") (fun _ _ => .ok []) 0 (freshState 0) "D").1.results.map
            (fun r => r.role)
        = [.accounts, .logistics, .boss1, .bossog]) := by
  refine ⟨?_, ?_, ?_⟩
  · exact sendMessage_totality_and_accounting.2.2.1 defaultLimCfg defaultBrkCfg
      (fun _ _ => .ok ["wamid.1"]) 0 (freshState 0) "+12345678901" "hello"
      (some .accounts) ["wamid.1"] (by decide) (by decide) rfl
  · have hb := sendMessage_totality_and_accounting.2.1 true defaultLimCfg defaultBrkCfg
      (fun _ _ => .fail .connRefused) 0 (freshState 0) "+12345678901" "hello"
      (some .accounts)
    have hne : ¬ ((sendMessage true defaultLimCfg defaultBrkCfg
        (fun _ _ => .fail .connRefused) 0 (freshState 0) "+12345678901" "hello"
        (some .accounts)).result.success = true) := by
      intro h
      obtain ⟨_, _, _, ids, heq⟩ := hb.mp h
      exact TransportOutcome.noConfusion heq
    simpa using hne
  · exact sendMessage_totality_and_accounting.2.2.2 true defaultLimCfg defaultBrkCfg
      { accounts := "+12345678901", logistics := "+12345678902",
        boss1 := "+12345678903", bossog := "+12345678904" }
      (fun _ => "hello") (fun _ _ => .ok []) 0 (freshState 0) "D"

end Spec2Proof
